import Mathlib

/-
  Verification development for the agentic ticket-remediation pipeline.

  Shallow embedding of the pipeline coordination core:
  app/agents/classifier.py, app/agents/planner.py,
  app/agents/PlaybookSelectionValidator.py, app/agents/executor.py,
  app/agents/closure.py, app/clients/awx_client.py, app/orchestrator.py.

  Decision-oracle (LLM) outputs are modelled as already-parsed structured
  values with optional fields; remote calls are modelled as oracle inputs.
  Wall-clock durations in the poll loop are modelled in abstract time
  units, with each loop iteration advancing the clock by one poll interval.
-/

/-- Substring containment, the Python `pat in text` test on strings. -/
def containsSub (text pat : String) : Bool :=
  (List.range (text.toList.length + 1)).any (fun i => pat.toList.isPrefixOf (text.toList.drop i))

/-- Lowercasing, the Python str.lower call (character-list based). -/
def lowerStr (s : String) : String :=
  ⟨s.data.map Char.toLower⟩

/-- Whitespace stripping, the Python str.strip call (character-list based). -/
def stripStr (s : String) : String :=
  ⟨((s.data.dropWhile Char.isWhitespace).reverse.dropWhile Char.isWhitespace).reverse⟩

/-- Python falsy-or-blank test used by closure.py:
    `not v or not str(v).strip()` for an optional string value. -/
def blankOpt : Option String → Bool
  | none => true
  | some s => stripStr s == ""

deriving instance DecidableEq for Except

/- ===== Data model (app/models.py) ===== -/

/-- Incident, from app/models.py. The intake stage guarantees `number` is set
    before any downstream stage runs, so it is modelled as a plain String. -/
structure Incident where
  number : String
  source : String
  resource_id : String
  service : String
  severity : String
  short_description : String
  description : String
deriving DecidableEq

/-- Classification, from app/models.py. -/
structure Classification where
  labels : List String
  confidence : ℚ
  eligibility : String
  severity : String
deriving DecidableEq

/-- One catalog entry: id, name, description (AWX job template). -/
structure PlaybookDesc where
  id : String
  name : String
  description : String
deriving DecidableEq

/-- Parsed planner-oracle output (the plan_data dict in planner.py before
    defaulting and override). -/
structure PlannerOut where
  playbook_id : Option String
  playbook_name : Option String
  prechecks : Option (List String)
  rollback_steps : Option (List String)
  risk_score : ℚ
  eligibility : String
deriving DecidableEq

/-- The finished plan_data dict computed inside PlannerAgent.run
    (planner.py lines 188-219). This is the transient dict only: it carries
    playbook_name, which the Plan model of models.py does not retain. -/
structure PlanData where
  playbook_id : String
  playbook_name : String
  prechecks : List String
  rollback_steps : List String
  risk_score : ℚ
  eligibility : String
deriving DecidableEq

/-- Plan, from app/models.py lines 24-29: playbook_id, prechecks,
    rollback_steps, risk_score, eligibility — and no playbook_name field. -/
structure Plan where
  playbook_id : String
  prechecks : List String
  rollback_steps : List String
  risk_score : ℚ
  eligibility : String
deriving DecidableEq

/-- Plan(**plan_data) at planner.py line 220: pydantic ignores the extra
    playbook_name key of the dict, so the constructed Plan object drops it. -/
def Plan.ofPlanData (pd : PlanData) : Plan :=
  ⟨pd.playbook_id, pd.prechecks, pd.rollback_steps, pd.risk_score, pd.eligibility⟩

/-- The attribute access ctx.plan.playbook_name performed at closure.py
    line 84. The Plan model has no playbook_name field and pydantic dropped
    the extra key at construction, so the access raises AttributeError for
    every Plan object. -/
def Plan.playbook_name_attr (_p : Plan) : Except String String :=
  .error "AttributeError: Plan object has no attribute playbook_name"

/-- ExecutionLog, from app/models.py. Step events are modelled as
    (event, message) pairs. -/
structure ExecutionLog where
  job_id : String
  steps : List (String × String)
  outputs : List (String × String)
  status : String
  finished_at : Option String
deriving DecidableEq

/-- ValidationSignals, from app/models.py. The opaque maps are modelled as
    association lists. -/
structure ValidationSignals where
  metrics : List (String × String)
  logs : List (String × String)
  synthetics : List (String × String)
  decision : String
deriving DecidableEq

/-- Parsed closure-oracle output (the parsed_dict in closure.py). -/
structure ClosureOut where
  work_notes : Option String
  resolution_summary : Option String
  resolution : Option String
  closed_by : Option String
  incident_id : Option String
deriving DecidableEq

/-- Closure record, from app/models.py. The closed_at wall-clock timestamp is
    outside the embedding and omitted. -/
structure Closure where
  incident_id : String
  closed_by : String
  resolution : String
  notes : Option String
  work_notes : Option String
  resolution_summary : Option String
deriving DecidableEq

/-- Parsed classifier-oracle output, after key lowercasing, in
    ClassifierAgent.run (classifier.py lines 115-127). -/
structure RawClassifierOut where
  labels : Option (List String)
  severity : Option String
  eligibility : Option String
  confidence : Option ℚ
deriving DecidableEq

/-- PipelineContext, from app/models.py. -/
structure PipelineContext where
  incident : Option Incident := none
  classification : Option Classification := none
  plan : Option Plan := none
  execution : Option ExecutionLog := none
  validation : Option ValidationSignals := none
  closure : Option Closure := none
deriving DecidableEq

/-- OrchestratorResponse, from app/models.py. -/
structure OrchestratorResponse where
  status : String
  incident : String
  job_id : Option String
deriving DecidableEq

/- ===== ClassifierAgent (app/agents/classifier.py) ===== -/

/-- ClassifierAgent._heuristic_labeler: scan text for obvious keywords as a
    safety net (classifier.py lines 45-69). The Python list(set(..)) is
    modelled by List.dedup. -/
def heuristic_labeler (text : String) : List String :=
  let text_lower := lowerStr text
  let storage_keywords := ["disk", "storage", "filesystem", "space", "partition", "mount", "full", "cleanup"]
  let l1 :=
    if storage_keywords.any (fun k => containsSub text_lower k) then
      ["disk_full"]
        ++ (if containsSub text_lower "var" then ["var_full"] else [])
        ++ (if containsSub text_lower "tmp" then ["tmp_full"] else [])
        ++ (if containsSub text_lower "cleanup" then ["filesystem_cleanup"] else [])
    else []
  let l2 := if ["cpu", "utilization", "processor"].any (fun k => containsSub text_lower k) then ["high_cpu"] else []
  let l3 := if ["memory", "ram", "memory_usage"].any (fun k => containsSub text_lower k) then ["high_memory"] else []
  (l1 ++ l2 ++ l3).dedup

/-- ClassifierAgent.run on a parsed oracle output (classifier.py lines
    114-147): defaulting of missing fields, pydantic validation of the
    eligibility literal, heuristic label union and confidence boost.
    The Python set union list(set(a).union(set(b))) is modelled by
    (a ++ b).dedup. A ValidationError or parse failure surfaces as
    an HTTPException, modelled by the error case. -/
def ClassifierAgent.run (o : RawClassifierOut) (short desc : String) : Except String Classification :=
  let labels := o.labels.getD ["unknown"]
  let severity := o.severity.getD "P3"
  let eligibility := o.eligibility.getD "auto"
  let confidence := o.confidence.getD (1/2)
  if eligibility = "auto" ∨ eligibility = "human-only" then
    let heuristic_labels := heuristic_labeler (short ++ " " ++ desc)
    if heuristic_labels.isEmpty then
      .ok ⟨labels, confidence, eligibility, severity⟩
    else
      .ok ⟨(labels ++ heuristic_labels).dedup, min 1 (confidence + 1/5), eligibility, severity⟩
  else
    .error "ClassifierAgent: invalid LLM output"

/- ===== PlaybookSelectionValidator (app/agents/PlaybookSelectionValidator.py) ===== -/

/-- The plan_data dict shape consumed by validate_playbook_selection. -/
structure VPlanData where
  playbook_id : String
  playbook_name : String
  description : String
  eligibility : String
deriving DecidableEq

/-- validate_playbook_selection (PlaybookSelectionValidator.py): enforce the
    CPU and disk playbooks by label, and force human-only eligibility for P1
    severity labels. known_playbooks is modelled as a total map since the
    Python code indexes the fetched entries unconditionally. NOTE: no module
    in the repository ever calls this function. -/
def validate_playbook_selection (plan_data : VPlanData) (labels : List String)
    (known_playbooks : String → PlaybookDesc) : VPlanData :=
  let ls := labels.map lowerStr
  let cpu_pb := known_playbooks "high_cpu"
  let pd :=
    if "high_cpu" ∈ ls ∧ plan_data.playbook_name ≠ cpu_pb.name then
      { plan_data with playbook_id := cpu_pb.id, playbook_name := cpu_pb.name,
                       description := cpu_pb.description }
    else plan_data
  let disk_pb := known_playbooks "disk_full"
  let pd :=
    if (["disk_full", "storage_full", "var_full", "tmp_full", "fs_full", "file_system_full"].any
          (fun l => l ∈ ls)) ∧ pd.playbook_name ≠ disk_pb.name then
      { pd with playbook_id := disk_pb.id, playbook_name := disk_pb.name,
                description := disk_pb.description }
    else pd
  if pd.eligibility = "auto" ∧ ("severity" ∈ ls ∨ "p1" ∈ ls) then
    { pd with eligibility := "human-only" }
  else pd

/- ===== PlannerAgent (app/agents/planner.py) ===== -/

/-- PlannerAgent._get_playbook_for_classification, inner mapping dict
    (planner.py lines 34-55), as an association table. -/
def playbookTable : List (String × PlaybookDesc) :=
  [("server_down", ⟨"7", "Demo Job Template", "Demo playbook for server remediation"⟩),
   ("high_cpu", ⟨"9", "check_cpu_utilization", "Check CPU utilization on Linux"⟩),
   ("high_memory", ⟨"7", "Demo Job Template", "Memory issues require further investigation or service restart"⟩),
   ("disk_full", ⟨"10", "Clean up var filesystem", "Archive old logs and clean up disk space on /var"⟩),
   ("storage_full", ⟨"10", "Clean up var filesystem", "Clean up /var filesystem"⟩),
   ("storage_space_warning", ⟨"10", "Clean up var filesystem", "Clean up /var filesystem"⟩),
   ("file_system_full", ⟨"10", "Clean up var filesystem", "Clean up /var filesystem"⟩),
   ("filesystem_cleanup", ⟨"10", "Clean up var filesystem", "Cleanup /var filesystem and remove temporary files"⟩),
   ("out_of_space", ⟨"10", "Clean up var filesystem", "Free up disk space on /var"⟩),
   ("var_full", ⟨"10", "Clean up var filesystem", "Clean up /var partition"⟩),
   ("tmp_full", ⟨"10", "Clean up var filesystem", "Clean up /tmp partition"⟩),
   ("fs_full", ⟨"10", "Clean up var filesystem", "Clean up filesystem"⟩),
   ("disk_usage_high", ⟨"10", "Clean up var filesystem", "Clean up disk space"⟩),
   ("disk_space", ⟨"10", "Clean up var filesystem", "Clean up disk space"⟩),
   ("filesystem_issue", ⟨"10", "Clean up var filesystem", "Clean up filesystem"⟩),
   ("storage_issue", ⟨"10", "Clean up var filesystem", "Clean up filesystem due to storage issue"⟩),
   ("critical_disk_space", ⟨"10", "Clean up var filesystem", "Clean up disk space"⟩),
   ("database_down", ⟨"7", "Demo Job Template", "Restart database service"⟩),
   ("network_error", ⟨"9", "check_cpu_utilization", "Check system metrics during network error"⟩),
   ("application_crash", ⟨"7", "Demo Job Template", "Restart application"⟩)]

/-- playbook_mapping.get(category): dict lookup modelled as a table scan. -/
def playbookMapping (category : String) : Option PlaybookDesc :=
  (playbookTable.find? (fun p => p.1 == category)).map Prod.snd

/-- The storage catch-all test of _get_playbook_for_classification
    (planner.py line 58): any of the root tokens occurs in the lowercased
    category. -/
def storageToken (category : String) : Bool :=
  ["disk", "storage", "filesystem", "space"].any (fun k => containsSub (lowerStr category) k)

/-- The default demo playbook returned on a mapping miss (planner.py line 61). -/
def defaultPlaybook : PlaybookDesc :=
  ⟨"7", "Demo Job Template", "Default remediation playbook"⟩

/-- PlannerAgent._get_playbook_for_classification (planner.py lines 32-61). -/
def getPlaybookForClassification (category : String) : PlaybookDesc :=
  if storageToken category then
    (playbookMapping "disk_full").getD defaultPlaybook
  else
    (playbookMapping category).getD defaultPlaybook

/-- The label loop of PlannerAgent.run (planner.py lines 136-141): the first
    label whose mapped playbook is not the default one wins. -/
def suggestFromLabels : List String → Option PlaybookDesc
  | [] => none
  | l :: ls =>
    let pb := getPlaybookForClassification l
    if pb.id ≠ "7" then some pb else suggestFromLabels ls

/-- The final storage safeguard of PlannerAgent.run (planner.py line 148):
    raw description keywords force the disk cleanup playbook. -/
def storageTextTrigger (short desc : String) : Bool :=
  let incident_text := lowerStr (short ++ " " ++ desc)
  ["/var", "/tmp", "disk full", "storage full", "filesystem full", "out of space"].any
    (fun k => containsSub incident_text k)

/-- The deterministic suggestion computed by PlannerAgent.run before the
    oracle is consulted (planner.py lines 136-150). -/
def suggestedPlaybook (labels : List String) (short desc : String) : PlaybookDesc :=
  let s := (suggestFromLabels labels).getD (getPlaybookForClassification "default")
  if storageTextTrigger short desc then
    ⟨"10", "Clean up var filesystem", "Forced fallback for storage issue"⟩
  else s

/-- selected_id = str(plan_data.get("playbook_id")) (planner.py line 205);
    str(None) is the literal string None. -/
def selectedIdOf (o : PlannerOut) : String :=
  match o.playbook_id with
  | some s => s
  | none => "None"

/-- Python falsy test on an optional string as used for playbook_name
    (planner.py line 217): missing or empty. -/
def falsyOptStr : Option String → Bool
  | none => true
  | some s => s == ""

/-- PlannerAgent.run on a parsed oracle output (planner.py lines 128-234):
    deterministic suggestion, storage text safeguard, override of the oracle
    choice when the suggestion is specific, and playbook_name backfill from
    the catalog. -/
def PlannerAgent.run (labels : List String) (short desc : String) (o : PlannerOut)
    (catalog : List PlaybookDesc) : PlanData :=
  let suggested := suggestedPlaybook labels short desc
  let prechecks := o.prechecks.getD []
  let rollback_steps := o.rollback_steps.getD []
  let sel := selectedIdOf o
  let idName : String × Option String :=
    if suggested.id ≠ "7" ∧ sel ≠ suggested.id then (suggested.id, some suggested.name)
    else (sel, o.playbook_name)
  let pid := idName.1
  let pname :=
    if falsyOptStr idName.2 then
      ((catalog.find? (fun pb => pb.id = pid)).map PlaybookDesc.name).getD "unknown"
    else idName.2.getD ""
  ⟨pid, pname, prechecks, rollback_steps, o.risk_score, o.eligibility⟩

/- ===== ExecutorAgent (app/agents/executor.py) ===== -/

/-- Outcome of the try block of ExecutorAgent.run (executor.py lines 32-38):
    either launch and poll both return, the launch call raises, or the launch
    succeeds and a later polling call raises. -/
inductive ExecAttempt where
  | ok (jobId : ℕ) (status : String) (events : List (String × String)) (finishedAt : Option String)
  | launchFail (err : String)
  | pollFail (launchedJobId : ℕ) (err : String)
deriving DecidableEq

/-- The diagnostic event attached in the except branch (executor.py line 45). -/
def awxErrorEvent (err : String) : String × String :=
  ("error", "Execution failed (AWX unavailable: " ++ err ++ ")")

/-- ExecutorAgent.run (executor.py lines 13-64). On any exception in the
    launch-and-poll block, a local mock job id is generated from a fresh
    hash (modelled as the localHash input, reduced mod 10000), the status is
    forced to failed, a single diagnostic event is attached and finished_at
    stays null. -/
def ExecutorAgent.run (attempt : ExecAttempt) (localHash : ℕ) : ExecutionLog :=
  match attempt with
  | .ok j s ev f => ⟨toString j, ev, [], s, f⟩
  | .launchFail e => ⟨toString (localHash % 10000), [awxErrorEvent e], [], "failed", none⟩
  | .pollFail _ e => ⟨toString (localHash % 10000), [awxErrorEvent e], [], "failed", none⟩

/- ===== ClosureAgent (app/agents/closure.py) ===== -/

/-- ClosureAgent.run on a parsed oracle dict (closure.py lines 60-105):
    defaulting of closed_by and incident_id, resolution fallback, the
    success override of notes and summary (which reads
    ctx.plan.playbook_name and therefore raises AttributeError, caught at
    lines 98-100 as an HTTPException, modelled as the error case), the
    pre-construction non-empty fixups (lines 87-90) and the
    post-construction non-empty fixups (lines 102-105). -/
def ClosureAgent.run (o : ClosureOut) (number : String) (plan : Plan)
    (execStatus valDecision : String) : Except String Closure :=
  let closed_by := o.closed_by.getD "orchestrator"
  let incident_id := o.incident_id.getD number
  let resolution :=
    match o.resolution with
    | some r =>
      if r = "resolved" ∨ r = "duplicate" ∨ r = "false-positive" ∨ r = "escalated" then r
      else if execStatus = "successful" then "resolved" else "escalated"
    | none => if execStatus = "successful" then "resolved" else "escalated"
  let step : Except String (String × Option String × Option String) :=
    if execStatus = "successful" ∧ valDecision = "success" then
      match Plan.playbook_name_attr plan with
      | .error e => .error e
      | .ok pname =>
        .ok ("resolved", some "Automated remediation successful",
             some ("Executed playbook " ++ pname ++ " successfully. Validation confirmed resolution."))
    else .ok (resolution, o.resolution_summary, o.work_notes)
  match step with
  | .error e => .error e
  | .ok rrw =>
    let wn1 := if blankOpt rrw.2.2 then some "Closed by orchestrator." else rrw.2.2
    let rs1 := if blankOpt rrw.2.1 then some "Incident processed by orchestration agent." else rrw.2.1
    let wn2 := if blankOpt wn1 then some "Closed by orchestrator." else wn1
    let rs2 := if blankOpt rs1 then some "Incident resolved by orchestration pipeline." else rs1
    .ok ⟨incident_id, closed_by, rrw.1, none, wn2, rs2⟩

/-- The closure stage including the oracle parse outcome: a parse failure is
    a hard stage failure (closure.py lines 98-100). -/
def ClosureAgent.runE (co : Except String ClosureOut) (number : String) (plan : Plan)
    (execStatus valDecision : String) : Except String Closure :=
  match co with
  | .error e => .error e
  | .ok o => ClosureAgent.run o number plan execStatus valDecision

/- ===== AWXClient.poll_job (app/clients/awx_client.py) ===== -/

/-- The terminal job statuses recognised by the poll loop
    (awx_client.py line 150). -/
def terminalStatuses : List String := ["successful", "failed", "error", "canceled"]

/-- Result of the poll loop: (status, events, finished_at) plus the elapsed
    time at return, in the abstract time units of the embedding. -/
structure PollResult where
  status : String
  events : List (String × String)
  finished_at : Option String
  elapsed : ℕ
deriving DecidableEq

/-- Events collected by the best-effort fetches of iterations 0..k-1: each
    successful fetch replaces the events list, a failed fetch keeps the
    previous one (awx_client.py lines 143-148). -/
def collectedEvents (eventsAt : ℕ → Option (List (String × String))) (k : ℕ) : List (String × String) :=
  (List.range k).foldl (fun acc i => (eventsAt i).getD acc) []

/-- The poll loop of AWXClient.poll_job (awx_client.py lines 140-160),
    iteration k. statusAt k and eventsAt k are the outcomes of the remote
    status and event calls of iteration k (eventsAt k = none models a failed,
    swallowed event fetch); finishedDetails is the finished field of the
    job-details call made on a terminal status. Elapsed wall-clock time at
    iteration k is k * poll_interval: one sleep of poll_interval per
    completed iteration, remote call latency abstracted to zero. -/
def AWXClient.poll_job_aux (statusAt : ℕ → String)
    (eventsAt : ℕ → Option (List (String × String))) (finishedDetails : Option String)
    (poll_interval timeout_seconds : ℕ) (hpos : 0 < poll_interval)
    (k : ℕ) (events : List (String × String)) : PollResult :=
  let status := statusAt k
  let events := (eventsAt k).getD events
  if status ∈ terminalStatuses then
    ⟨status, events, finishedDetails, k * poll_interval⟩
  else if _h : timeout_seconds ≤ k * poll_interval then
    ⟨"timeout", events, none, k * poll_interval⟩
  else
    AWXClient.poll_job_aux statusAt eventsAt finishedDetails poll_interval timeout_seconds hpos
      (k + 1) events
termination_by timeout_seconds - k
decreasing_by
  have hk : k ≤ k * poll_interval := Nat.le_mul_of_pos_right k hpos
  have h3 : k * poll_interval < timeout_seconds := Nat.lt_of_not_le _h
  have h4 : k < timeout_seconds := Nat.lt_of_le_of_lt hk h3
  omega

/-- AWXClient.poll_job (awx_client.py lines 125-160): start at iteration 0
    with no events collected. -/
def AWXClient.poll_job (statusAt : ℕ → String)
    (eventsAt : ℕ → Option (List (String × String))) (finishedDetails : Option String)
    (poll_interval timeout_seconds : ℕ) (hpos : 0 < poll_interval) : PollResult :=
  AWXClient.poll_job_aux statusAt eventsAt finishedDetails poll_interval timeout_seconds hpos 0 []

/- ===== OrchestrationAgent (app/orchestrator.py) ===== -/

/-- Stage names of the pipeline state machine. -/
inductive Stage where
  | intake | classify | plan | execute | validate | close
deriving DecidableEq

/-- Inputs of one OrchestrationAgent.run invocation: the raw incident number
    after the incident_number mapping, the outcome of each oracle call and of
    each remote attempt. attempt1/localId1 feed the first Execute, and
    attempt2/localId2 the rollback retry. -/
structure OrchInputs where
  rawNumber : Option String
  intakeOut : Except String Incident
  classifierOut : Except String RawClassifierOut
  plannerOut : Except String PlannerOut
  catalog : List PlaybookDesc
  attempt1 : ExecAttempt
  attempt2 : ExecAttempt
  localId1 : ℕ
  localId2 : ℕ
  validatorOut : Except String ValidationSignals
  closureOut : Except String ClosureOut

/-- Result of one coordinator run: the response, the ordered list of stages
    that were invoked, and the final pipeline context. -/
structure OrchResult where
  response : OrchestratorResponse
  trace : List Stage
  ctx : PipelineContext

/-- The error response of the outer except branch (orchestrator.py lines
    78-84): raw_incident.get("number") or "unknown", with the Python
    falsy-or semantics on the empty string. -/
def errorResponse (rawNumber : Option String) : OrchestratorResponse :=
  ⟨"error",
   (match rawNumber with
    | some s => if s = "" then "unknown" else s
    | none => "unknown"),
   none⟩

/-- OrchestrationAgent.run (orchestrator.py lines 18-84): Intake, Classify,
    the human-only policy gate, Plan, Execute, Validate, the single rollback
    retry of Execute, Close; any uncaught stage failure yields the error
    response. -/
def OrchestrationAgent.run (inp : OrchInputs) : OrchResult :=
  match inp.intakeOut with
  | .error _ => ⟨errorResponse inp.rawNumber, [Stage.intake], {}⟩
  | .ok inc =>
    let ctx0 : PipelineContext := { incident := some inc }
    match inp.classifierOut with
    | .error _ => ⟨errorResponse inp.rawNumber, [Stage.intake, Stage.classify], ctx0⟩
    | .ok raw =>
      match ClassifierAgent.run raw inc.short_description inc.description with
      | .error _ => ⟨errorResponse inp.rawNumber, [Stage.intake, Stage.classify], ctx0⟩
      | .ok cls =>
        let ctx1 := { ctx0 with classification := some cls }
        if cls.eligibility = "human-only" then
          ⟨⟨"awaiting_approval", inc.number, none⟩, [Stage.intake, Stage.classify], ctx1⟩
        else
          match inp.plannerOut with
          | .error _ => ⟨errorResponse inp.rawNumber, [Stage.intake, Stage.classify, Stage.plan], ctx1⟩
          | .ok po =>
            let plan := Plan.ofPlanData
              (PlannerAgent.run cls.labels inc.short_description inc.description po inp.catalog)
            let ctx2 := { ctx1 with plan := some plan }
            let exec1 := ExecutorAgent.run inp.attempt1 inp.localId1
            let ctx3 := { ctx2 with execution := some exec1 }
            match inp.validatorOut with
            | .error _ =>
              ⟨errorResponse inp.rawNumber,
               [Stage.intake, Stage.classify, Stage.plan, Stage.execute, Stage.validate], ctx3⟩
            | .ok vs =>
              let ctx4 := { ctx3 with validation := some vs }
              let execF := if vs.decision = "rollback" then ExecutorAgent.run inp.attempt2 inp.localId2 else exec1
              let ctx5 := { ctx4 with execution := some execF }
              let trace := [Stage.intake, Stage.classify, Stage.plan, Stage.execute, Stage.validate]
                ++ (if vs.decision = "rollback" then [Stage.execute] else []) ++ [Stage.close]
              match ClosureAgent.runE inp.closureOut inc.number plan execF.status vs.decision with
              | .error _ => ⟨errorResponse inp.rawNumber, trace, ctx5⟩
              | .ok cl =>
                ⟨⟨vs.decision, inc.number, some execF.job_id⟩, trace, { ctx5 with closure := some cl }⟩

/- ===== Auxiliary definitions used by the theorems ===== -/

/-- The storage-family marker labels named by the disk/storage override
    (PlaybookSelectionValidator.py lines 19-21 and spec section 8). -/
def storageMarkers : List String :=
  ["disk_full", "storage_full", "var_full", "tmp_full", "fs_full", "file_system_full"]

/-- The mapping-table categories whose entry is the filesystem-cleanup
    playbook id 10 (planner.py lines 38-51). -/
def storageMappedCats : List String :=
  ["disk_full", "storage_full", "storage_space_warning", "file_system_full",
   "filesystem_cleanup", "out_of_space", "var_full", "tmp_full", "fs_full",
   "disk_usage_high", "disk_space", "filesystem_issue", "storage_issue",
   "critical_disk_space"]

/-- Concrete incident used to exercise the severity-gate scenario. -/
def c1Incident : Incident :=
  ⟨"INC0001", "servicenow", "host-alpha", "orchestrator", "P1",
   "Service degraded", "Critical incident on host alpha"⟩

/-- Concrete catalog snapshot with the demo, CPU and disk playbooks. -/
def c1Catalog : List PlaybookDesc :=
  [⟨"7", "Demo Job Template", "Demo playbook"⟩,
   ⟨"9", "check_cpu_utilization", "Check CPU utilization on Linux"⟩,
   ⟨"10", "Clean up var filesystem", "Clean up /var filesystem"⟩]

/-- Concrete coordinator inputs: the classifier oracle asserts a P1 marker
    label but auto eligibility; every remote interaction succeeds. -/
def c1Inp : OrchInputs :=
  { rawNumber := some "INC0001"
    intakeOut := .ok c1Incident
    classifierOut := .ok ⟨some ["P1"], some "P1", some "auto", some (mkRat 9 10)⟩
    plannerOut := .ok ⟨some "7", some "Demo Job Template", some [], some [], mkRat 1 10, "auto"⟩
    catalog := c1Catalog
    attempt1 := .ok 42 "successful" [("runner_on_ok", "done")] (some "2025-01-01T00:00:10Z")
    attempt2 := .ok 43 "successful" [] none
    localId1 := 1234
    localId2 := 5678
    validatorOut := .ok ⟨[], [], [], "success"⟩
    closureOut := .ok ⟨none, none, none, none, none⟩ }

/-- Concrete known_playbooks map for the dead validate_playbook_selection. -/
def c1KnownPlaybooks : String → PlaybookDesc := fun c =>
  if c = "high_cpu" then ⟨"9", "check_cpu_utilization", "Check CPU utilization on Linux"⟩
  else if c = "disk_full" then ⟨"10", "Clean up var filesystem", "Clean up /var filesystem"⟩
  else ⟨"7", "Demo Job Template", "Demo playbook"⟩

/-- Concrete incident with text free of heuristic keywords. -/
def c6Incident : Incident :=
  ⟨"INC0002", "servicenow", "host-beta", "orchestrator", "P3",
   "Service down", "The service does not respond"⟩

/-- Concrete coordinator inputs where the automation-runner launch raises. -/
def c6Inp : OrchInputs :=
  { rawNumber := some "INC0002"
    intakeOut := .ok c6Incident
    classifierOut := .ok ⟨some ["server_down"], some "P3", some "auto", some (mkRat 1 2)⟩
    plannerOut := .ok ⟨some "7", some "Demo Job Template", some [], some [], mkRat 1 10, "auto"⟩
    catalog := c1Catalog
    attempt1 := .launchFail "connection refused"
    attempt2 := .ok 44 "successful" [] none
    localId1 := 4321
    localId2 := 8765
    validatorOut := .ok ⟨[], [], [], "escalate"⟩
    closureOut := .ok ⟨none, none, none, none, none⟩ }

/-- Concrete coordinator inputs where validation decides rollback. -/
def c8Inp : OrchInputs :=
  { rawNumber := some "INC0002"
    intakeOut := .ok c6Incident
    classifierOut := .ok ⟨some ["server_down"], some "P3", some "auto", some (mkRat 1 2)⟩
    plannerOut := .ok ⟨some "7", some "Demo Job Template", some [], some [], mkRat 1 10, "auto"⟩
    catalog := c1Catalog
    attempt1 := .ok 50 "failed" [("runner_on_failed", "task crashed")] (some "2025-01-01T00:01:00Z")
    attempt2 := .ok 51 "failed" [("runner_on_failed", "task crashed again")] (some "2025-01-01T00:02:00Z")
    localId1 := 1111
    localId2 := 2222
    validatorOut := .ok ⟨[], [], [], "rollback"⟩
    closureOut := .ok ⟨none, none, none, none, none⟩ }

/- ===== Helper lemmas ===== -/

theorem blankOpt_fix_nonblank (w : Option String) (d : String) (hd : stripStr d ≠ "") :
    ∃ s, (if blankOpt w then some d else w) = some s ∧ stripStr s ≠ "" := by
  by_cases h : blankOpt w
  · exact ⟨d, by simp [h], hd⟩
  · cases w with
    | none => simp [blankOpt] at h
    | some s =>
      refine ⟨s, by simp [h], ?_⟩
      simpa [blankOpt] using h

/- ===== C7 ===== -/

/-- C7: for every parsed closure-oracle output, including blank or missing
    work_notes and resolution_summary, every Closure record the closure
    stage returns carries non-empty (non-whitespace) work_notes and
    resolution_summary, with fixed fallback strings substituted when the
    oracle leaves them blank. (On the successful-plus-success path the
    source raises AttributeError on ctx.plan.playbook_name and returns no
    record at all, so no record escapes the non-empty guarantee.) -/
theorem c7_closure_never_blank (o : ClosureOut) (number : String) (plan : Plan)
    (execStatus valDecision : String) (c : Closure)
    (h : ClosureAgent.run o number plan execStatus valDecision = .ok c) :
    (∃ w, c.work_notes = some w ∧ stripStr w ≠ "") ∧
    (∃ r, c.resolution_summary = some r ∧ stripStr r ≠ "") := by
  simp only [ClosureAgent.run] at h
  by_cases hsv : (execStatus = "successful" ∧ valDecision = "success")
  · rw [if_pos hsv] at h
    simp [Plan.playbook_name_attr] at h
  · rw [if_neg hsv] at h
    injection h with h'
    subst h'
    constructor
    · exact blankOpt_fix_nonblank _ _ (by decide)
    · exact blankOpt_fix_nonblank _ _ (by decide)

/-- C7 witness: the theorem applied to an oracle output with blank
    work_notes, no resolution_summary and an invalid resolution value, on a
    failed execution. -/
theorem c7_witness :
    (ClosureAgent.run ⟨some "", none, some "bogus", none, none⟩ "INC0004"
        ⟨"7", [], [], mkRat 1 10, "auto"⟩ "failed" "rollback" =
      .ok ⟨"INC0004", "orchestrator", "escalated", none,
           some "Closed by orchestrator.", some "Incident processed by orchestration agent."⟩) ∧
    ((∃ w, (Closure.mk "INC0004" "orchestrator" "escalated" none
              (some "Closed by orchestrator.")
              (some "Incident processed by orchestration agent.")).work_notes = some w ∧
           stripStr w ≠ "") ∧
     (∃ r, (Closure.mk "INC0004" "orchestrator" "escalated" none
              (some "Closed by orchestrator.")
              (some "Incident processed by orchestration agent.")).resolution_summary = some r ∧
           stripStr r ≠ "")) :=
  ⟨by decide,
   c7_closure_never_blank ⟨some "", none, some "bogus", none, none⟩ "INC0004"
     ⟨"7", [], [], mkRat 1 10, "auto"⟩ "failed" "rollback"
     ⟨"INC0004", "orchestrator", "escalated", none,
      some "Closed by orchestrator.", some "Incident processed by orchestration agent."⟩
     (by decide)⟩

/- ===== C10 ===== -/

/-- C10: when the launch succeeds but a later polling call raises, the
    executor attaches a record with status failed, exactly one diagnostic
    event, null finished_at and a locally generated job id; the record does
    not depend on the id the launch returned. -/
theorem c10_poll_failure_discards_remote_id (launchedId localHash : ℕ) (e : String) :
    ExecutorAgent.run (.pollFail launchedId e) localHash =
      ⟨toString (localHash % 10000), [awxErrorEvent e], [], "failed", none⟩ ∧
    (∀ otherId : ℕ, ExecutorAgent.run (.pollFail otherId e) localHash =
      ExecutorAgent.run (.pollFail launchedId e) localHash) :=
  ⟨rfl, fun _ => rfl⟩

/- ===== C2 ===== -/

/-- C2, counterexample: the planner-oracle picks id 999, which is in no
    catalog entry; with no specific deterministic suggestion the plan simply
    carries the unknown id 999 (the name backfill yields unknown), and no
    error of any kind is raised. -/
theorem c2_counterexample :
    (PlannerAgent.run ["unknown"] "login issue" ""
        ⟨some "999", none, none, none, 1/10, "auto"⟩ c1Catalog).playbook_id = "999" ∧
    (c1Catalog.all fun pb => pb.id ≠ "999") ∧
    (PlannerAgent.run ["unknown"] "login issue" ""
        ⟨some "999", none, none, none, 1/10, "auto"⟩ c1Catalog).playbook_name = "unknown" := by
  decide

/-- C2, amended: PlannerAgent.run performs no catalog-membership validation.
    The returned playbook_id is always either the oracle-selected id,
    accepted unchanged, or the deterministic policy-table suggestion id; the
    catalog is consulted only to backfill a missing playbook_name. -/
theorem c2_no_catalog_validation (labels : List String) (short desc : String) (o : PlannerOut)
    (catalog : List PlaybookDesc) :
    (PlannerAgent.run labels short desc o catalog).playbook_id = selectedIdOf o ∨
    (PlannerAgent.run labels short desc o catalog).playbook_id =
      (suggestedPlaybook labels short desc).id := by
  by_cases h : (suggestedPlaybook labels short desc).id ≠ "7" ∧
      selectedIdOf o ≠ (suggestedPlaybook labels short desc).id
  · right
    simp [PlannerAgent.run, h]
  · left
    simp [PlannerAgent.run, h]

/- ===== Playbook-mapping lemmas ===== -/

theorem getPB_id_cases (l : String) :
    (getPlaybookForClassification l).id = "7" ∨ (getPlaybookForClassification l).id = "9" ∨
    (getPlaybookForClassification l).id = "10" := by
  unfold getPlaybookForClassification
  by_cases hst : storageToken l
  · rw [if_pos hst]
    exact Or.inr (Or.inr (by decide))
  · rw [if_neg hst]
    cases hf2 : playbookTable.find? (fun p => p.1 == l) with
    | none =>
      have hm : playbookMapping l = none := by simp [playbookMapping, hf2]
      rw [hm]
      exact Or.inl (by decide)
    | some p =>
      have hm : playbookMapping l = some p.2 := by simp [playbookMapping, hf2]
      rw [hm, Option.getD_some]
      have hmem := List.mem_of_find?_eq_some hf2
      have key : ∀ q ∈ playbookTable, q.2.id = "7" ∨ q.2.id = "9" ∨ q.2.id = "10" := by decide
      exact key p hmem

theorem getPB_id_nine (l : String) (h : (getPlaybookForClassification l).id = "9") :
    l = "high_cpu" ∨ l = "network_error" := by
  unfold getPlaybookForClassification at h
  by_cases hst : storageToken l
  · rw [if_pos hst] at h
    exact absurd h (by decide)
  · rw [if_neg hst] at h
    cases hf2 : playbookTable.find? (fun p => p.1 == l) with
    | none =>
      have hm : playbookMapping l = none := by simp [playbookMapping, hf2]
      rw [hm] at h
      exact absurd h (by decide)
    | some p =>
      have hm : playbookMapping l = some p.2 := by simp [playbookMapping, hf2]
      rw [hm, Option.getD_some] at h
      have hmem := List.mem_of_find?_eq_some hf2
      have hb := List.find?_some hf2
      have hpl : p.1 = l := eq_of_beq hb
      have key : ∀ q ∈ playbookTable, q.2.id = "9" →
          q.1 = "high_cpu" ∨ q.1 = "network_error" := by decide
      rw [← hpl]
      exact key p hmem h

theorem getPB_id_ten_sources (l : String) (h : (getPlaybookForClassification l).id = "10") :
    storageToken l = true ∨ l ∈ storageMappedCats := by
  by_cases hst : storageToken l
  · exact Or.inl hst
  · right
    unfold getPlaybookForClassification at h
    rw [if_neg hst] at h
    cases hf2 : playbookTable.find? (fun p => p.1 == l) with
    | none =>
      have hm : playbookMapping l = none := by simp [playbookMapping, hf2]
      rw [hm] at h
      exact absurd h (by decide)
    | some p =>
      have hm : playbookMapping l = some p.2 := by simp [playbookMapping, hf2]
      rw [hm, Option.getD_some] at h
      have hmem := List.mem_of_find?_eq_some hf2
      have hb := List.find?_some hf2
      have hpl : p.1 = l := eq_of_beq hb
      have key : ∀ q ∈ playbookTable, q.2.id = "10" → q.1 ∈ storageMappedCats := by decide
      rw [← hpl]
      exact key p hmem h

theorem storageMarkers_map_ten (s : String) (hs : s ∈ storageMarkers) :
    (getPlaybookForClassification s).id = "10" := by
  fin_cases hs <;> decide

theorem suggestFromLabels_all_ten (labels : List String)
    (h9 : ∀ l ∈ labels, (getPlaybookForClassification l).id ≠ "9")
    (hex : ∃ s ∈ labels, (getPlaybookForClassification s).id = "10") :
    ∃ pb, suggestFromLabels labels = some pb ∧ pb.id = "10" := by
  induction labels with
  | nil => simp at hex
  | cons a tl ih =>
    by_cases ha : (getPlaybookForClassification a).id = "7"
    · have hrec : suggestFromLabels (a :: tl) = suggestFromLabels tl := by
        simp [suggestFromLabels, ha]
      rw [hrec]
      apply ih
      · intro l hl
        exact h9 l (List.mem_cons_of_mem a hl)
      · obtain ⟨s, hs, hs10⟩ := hex
        rcases List.mem_cons.mp hs with rfl | hs'
        · exact absurd (ha.symm.trans hs10) (by decide)
        · exact ⟨s, hs', hs10⟩
    · have hsome : suggestFromLabels (a :: tl) = some (getPlaybookForClassification a) := by
        simp [suggestFromLabels, ha]
      refine ⟨getPlaybookForClassification a, hsome, ?_⟩
      rcases getPB_id_cases a with h | h | h
      · exact absurd h ha
      · exact absurd h (h9 a (List.mem_cons_self a tl))
      · exact h

theorem suggestFromLabels_all_nine (labels : List String)
    (h10 : ∀ l ∈ labels, (getPlaybookForClassification l).id ≠ "10")
    (hex : ∃ s ∈ labels, (getPlaybookForClassification s).id = "9") :
    ∃ pb, suggestFromLabels labels = some pb ∧ pb.id = "9" := by
  induction labels with
  | nil => simp at hex
  | cons a tl ih =>
    by_cases ha : (getPlaybookForClassification a).id = "7"
    · have hrec : suggestFromLabels (a :: tl) = suggestFromLabels tl := by
        simp [suggestFromLabels, ha]
      rw [hrec]
      apply ih
      · intro l hl
        exact h10 l (List.mem_cons_of_mem a hl)
      · obtain ⟨s, hs, hs9⟩ := hex
        rcases List.mem_cons.mp hs with rfl | hs'
        · exact absurd (ha.symm.trans hs9) (by decide)
        · exact ⟨s, hs', hs9⟩
    · have hsome : suggestFromLabels (a :: tl) = some (getPlaybookForClassification a) := by
        simp [suggestFromLabels, ha]
      refine ⟨getPlaybookForClassification a, hsome, ?_⟩
      rcases getPB_id_cases a with h | h | h
      · exact absurd h ha
      · exact h
      · exact absurd h (h10 a (List.mem_cons_self a tl))

/- ===== C3 ===== -/

/-- C3, counterexample: the label set contains the storage marker disk_full,
    but because high_cpu precedes it in the label list the deterministic
    suggestion — and hence the final plan — is the CPU playbook id 9, not
    the canonical filesystem-cleanup id 10, even though the oracle itself
    had chosen id 10. -/
theorem c3_counterexample :
    "disk_full" ∈ (["high_cpu", "disk_full"] : List String) ∧
    (PlannerAgent.run ["high_cpu", "disk_full"] "cpu load" ""
        ⟨some "10", none, none, none, 1/10, "auto"⟩ c1Catalog).playbook_id = "9" ∧
    (PlannerAgent.run ["high_cpu", "disk_full"] "cpu load" ""
        ⟨some "10", none, none, none, 1/10, "auto"⟩ c1Catalog).playbook_id ≠ "10" := by
  decide

/-- C3, amended: for every classification whose label set contains a
    storage-family marker and contains neither high_cpu nor network_error
    (the only labels mapped to a different non-default playbook), the final
    plan playbook_id is the filesystem-cleanup entry id 10, regardless of
    the oracle choice, of the other labels and of the incident text. -/
theorem c3_storage_forces_cleanup (labels : List String) (short desc : String) (o : PlannerOut)
    (catalog : List PlaybookDesc) (s : String)
    (hs : s ∈ labels) (hsm : s ∈ storageMarkers)
    (hcpu : "high_cpu" ∉ labels) (hnet : "network_error" ∉ labels) :
    (PlannerAgent.run labels short desc o catalog).playbook_id = "10" := by
  have h9 : ∀ l ∈ labels, (getPlaybookForClassification l).id ≠ "9" := by
    intro l hl h
    rcases getPB_id_nine l h with rfl | rfl
    · exact hcpu hl
    · exact hnet hl
  obtain ⟨pb, hpb, hpb10⟩ :=
    suggestFromLabels_all_ten labels h9 ⟨s, hs, storageMarkers_map_ten s hsm⟩
  have hsugg : (suggestedPlaybook labels short desc).id = "10" := by
    unfold suggestedPlaybook
    rw [hpb]
    by_cases ht : storageTextTrigger short desc <;> simp [ht, hpb10]
  by_cases hsel : selectedIdOf o = "10" <;>
    simp [PlannerAgent.run, hsugg, hsel]

/-- C3 witness: a concrete run with labels [server_down, var_full] and an
    oracle that picked the demo playbook still ends on playbook id 10. -/
theorem c3_witness :
    ("var_full" ∈ (["server_down", "var_full"] : List String)) ∧
    ("var_full" ∈ storageMarkers) ∧
    ("high_cpu" ∉ (["server_down", "var_full"] : List String)) ∧
    ("network_error" ∉ (["server_down", "var_full"] : List String)) ∧
    (PlannerAgent.run ["server_down", "var_full"] "service degraded" ""
        ⟨some "7", some "Demo Job Template", none, none, 1/10, "auto"⟩ c1Catalog).playbook_id = "10" :=
  ⟨by decide, by decide, by decide, by decide,
   c3_storage_forces_cleanup _ _ _ _ _ "var_full" (by decide) (by decide) (by decide) (by decide)⟩

/- ===== C4 ===== -/

/-- C4, counterexample: the label set is exactly [high_cpu], but the incident
    description mentions /var, so the storage text safeguard forces the
    filesystem-cleanup playbook id 10: the final plan is not the CPU entry
    id 9 even though the oracle chose it. -/
theorem c4_counterexample :
    "high_cpu" ∈ (["high_cpu"] : List String) ∧
    (PlannerAgent.run ["high_cpu"] "high cpu" "/var is full on host"
        ⟨some "9", none, none, none, 1/10, "auto"⟩ c1Catalog).playbook_id = "10" ∧
    (PlannerAgent.run ["high_cpu"] "high cpu" "/var is full on host"
        ⟨some "9", none, none, none, 1/10, "auto"⟩ c1Catalog).playbook_id ≠ "9" := by
  decide

/-- C4, amended: for every classification whose label set contains high_cpu,
    the final plan playbook_id is the CPU entry id 9 regardless of the
    oracle choice, provided no label is storage-mapped (no storage-table
    category and no storage root token as a substring) and the incident
    text contains none of the storage trigger phrases; a storage label or
    storage text forces the filesystem-cleanup entry id 10 instead. -/
theorem c4_cpu_forces_cpu_playbook (labels : List String) (short desc : String) (o : PlannerOut)
    (catalog : List PlaybookDesc)
    (hcpu : "high_cpu" ∈ labels)
    (hnostore : ∀ l ∈ labels, storageToken l = false ∧ l ∉ storageMappedCats)
    (htext : storageTextTrigger short desc = false) :
    (PlannerAgent.run labels short desc o catalog).playbook_id = "9" := by
  have h10 : ∀ l ∈ labels, (getPlaybookForClassification l).id ≠ "10" := by
    intro l hl h
    rcases getPB_id_ten_sources l h with ht | hm
    · rw [(hnostore l hl).1] at ht
      cases ht
    · exact (hnostore l hl).2 hm
  have hex : (getPlaybookForClassification "high_cpu").id = "9" := by decide
  obtain ⟨pb, hpb, hpb9⟩ :=
    suggestFromLabels_all_nine labels h10 ⟨"high_cpu", hcpu, hex⟩
  have hsugg : (suggestedPlaybook labels short desc).id = "9" := by
    unfold suggestedPlaybook
    rw [hpb]
    simp [htext, hpb9]
  by_cases hsel : selectedIdOf o = "9" <;>
    simp [PlannerAgent.run, hsugg, hsel]

/-- C4 witness: a concrete run with labels [high_cpu], a clean incident
    text and an oracle that picked the demo playbook ends on playbook id 9. -/
theorem c4_witness :
    ("high_cpu" ∈ (["high_cpu"] : List String)) ∧
    (∀ l ∈ (["high_cpu"] : List String), storageToken l = false ∧ l ∉ storageMappedCats) ∧
    (storageTextTrigger "cpu pegged at 100 percent" "" = false) ∧
    (PlannerAgent.run ["high_cpu"] "cpu pegged at 100 percent" ""
        ⟨some "7", some "Demo Job Template", none, none, 1/10, "auto"⟩ c1Catalog).playbook_id = "9" :=
  ⟨by decide, by decide, by decide,
   c4_cpu_forces_cpu_playbook _ _ _ _ _ (by decide) (by decide) (by decide)⟩

/- ===== C9 ===== -/

/-- C9, counterexample: the oracle asserts exactly [disk_full] with
    confidence 0.5, the text is a disk incident, so the heuristic labels are
    a subset of the oracle labels and the union adds nothing — yet the
    confidence is still boosted to 0.7 (the code keys the bonus on the
    heuristic being non-empty, not on the union adding new labels). -/
theorem c9_counterexample :
    ClassifierAgent.run ⟨some ["disk_full"], some "P3", some "auto", some (1/2)⟩ "disk full" "" =
      .ok ⟨["disk_full"], min 1 ((1:ℚ)/2 + 1/5), "auto", "P3"⟩ ∧
    min 1 ((1:ℚ)/2 + 1/5) = 7/10 ∧ ((7:ℚ)/10 ≠ 1/2) := by
  refine ⟨rfl, by norm_num, by norm_num⟩

/-- C9, amended: the final label set is always a superset of the
    oracle-asserted labels (the union never removes a label), and the fixed
    confidence bonus of 0.2, capped at 1.0, is applied exactly when the
    heuristic labeler matches at least one keyword group — even when every
    heuristic label was already asserted by the oracle and the union adds
    nothing. -/
theorem c9_union_monotone_bonus (o : RawClassifierOut) (short desc : String) (c : Classification)
    (h : ClassifierAgent.run o short desc = .ok c) :
    (∀ l ∈ o.labels.getD ["unknown"], l ∈ c.labels) ∧
    (heuristic_labeler (short ++ " " ++ desc) = [] → c.confidence = o.confidence.getD (1/2)) ∧
    (heuristic_labeler (short ++ " " ++ desc) ≠ [] →
      c.confidence = min 1 (o.confidence.getD (1/2) + 1/5)) := by
  unfold ClassifierAgent.run at h
  by_cases he : (o.eligibility.getD "auto" = "auto" ∨ o.eligibility.getD "auto" = "human-only")
  · rw [if_pos he] at h
    by_cases hh : (heuristic_labeler (short ++ " " ++ desc)).isEmpty
    · rw [if_pos hh] at h
      have hc : c = ⟨o.labels.getD ["unknown"], o.confidence.getD (1/2),
          o.eligibility.getD "auto", o.severity.getD "P3"⟩ := by
        injection h with h'
        exact h'.symm
      subst hc
      refine ⟨fun l hl => hl, fun _ => rfl, fun hne => ?_⟩
      exact absurd (List.isEmpty_iff.mp hh) hne
    · rw [if_neg hh] at h
      have hc : c = ⟨(o.labels.getD ["unknown"] ++ heuristic_labeler (short ++ " " ++ desc)).dedup,
          min 1 (o.confidence.getD (1/2) + 1/5),
          o.eligibility.getD "auto", o.severity.getD "P3"⟩ := by
        injection h with h'
        exact h'.symm
      subst hc
      refine ⟨fun l hl => ?_, fun hemp => ?_, fun _ => rfl⟩
      · exact List.mem_dedup.mpr (List.mem_append_left _ hl)
      · exact absurd hemp (by simpa [List.isEmpty_iff] using hh)
  · rw [if_neg he] at h
    cases h

/-- C9 witness: the amended theorem applied at a concrete oracle output
    whose heuristic matches, checking the superset and bonus clauses. -/
theorem c9_witness :
    (ClassifierAgent.run ⟨some ["var_full"], some "P2", some "auto", some (3/10)⟩
        "" "cleanup needed on /var partition" =
      .ok ⟨["disk_full", "var_full", "filesystem_cleanup"], min 1 ((3:ℚ)/10 + 1/5), "auto", "P2"⟩) ∧
    ((∀ l ∈ (some ["var_full"] : Option (List String)).getD ["unknown"],
        l ∈ (Classification.mk ["disk_full", "var_full", "filesystem_cleanup"]
              (min 1 ((3:ℚ)/10 + 1/5)) "auto" "P2").labels) ∧
     (heuristic_labeler ("" ++ " " ++ "cleanup needed on /var partition") = [] →
        (Classification.mk ["disk_full", "var_full", "filesystem_cleanup"]
              (min 1 ((3:ℚ)/10 + 1/5)) "auto" "P2").confidence =
          (some ((3:ℚ)/10) : Option ℚ).getD (1/2)) ∧
     (heuristic_labeler ("" ++ " " ++ "cleanup needed on /var partition") ≠ [] →
        (Classification.mk ["disk_full", "var_full", "filesystem_cleanup"]
              (min 1 ((3:ℚ)/10 + 1/5)) "auto" "P2").confidence =
          min 1 ((some ((3:ℚ)/10) : Option ℚ).getD (1/2) + 1/5))) :=
  ⟨rfl,
   c9_union_monotone_bonus ⟨some ["var_full"], some "P2", some "auto", some (3/10)⟩
     "" "cleanup needed on /var partition"
     ⟨["disk_full", "var_full", "filesystem_cleanup"], min 1 ((3:ℚ)/10 + 1/5), "auto", "P2"⟩ rfl⟩

/- ===== C5 ===== -/

theorem collectedEvents_succ (eventsAt : ℕ → Option (List (String × String))) (k : ℕ) :
    collectedEvents eventsAt (k + 1) = (eventsAt k).getD (collectedEvents eventsAt k) := by
  unfold collectedEvents
  rw [List.range_succ, List.foldl_append]
  rfl

theorem elapsed_bound_of_inv (poll_interval timeout_seconds k : ℕ) (hpos : 0 < poll_interval)
    (hinv : k = 0 ∨ (k - 1) * poll_interval < timeout_seconds) :
    k * poll_interval < timeout_seconds + poll_interval := by
  rcases hinv with rfl | hlt
  · omega
  · have hstep : k * poll_interval ≤ (k - 1) * poll_interval + poll_interval := by
      cases k with
      | zero => simp
      | succ m => simp [Nat.succ_sub_one, Nat.succ_mul]
    omega

theorem poll_job_aux_never_terminal (statusAt : ℕ → String)
    (eventsAt : ℕ → Option (List (String × String))) (finishedDetails : Option String)
    (poll_interval timeout_seconds : ℕ) (hpos : 0 < poll_interval)
    (hnt : ∀ j, statusAt j ∉ terminalStatuses) :
    ∀ n k, timeout_seconds - k ≤ n → (k = 0 ∨ (k - 1) * poll_interval < timeout_seconds) →
      ∃ j, k ≤ j ∧
        AWXClient.poll_job_aux statusAt eventsAt finishedDetails poll_interval timeout_seconds hpos
            k (collectedEvents eventsAt k) =
          ⟨"timeout", collectedEvents eventsAt (j + 1), none, j * poll_interval⟩ ∧
        j * poll_interval < timeout_seconds + poll_interval := by
  intro n
  induction n with
  | zero =>
    intro k hle hinv
    have hk : timeout_seconds ≤ k := by omega
    have hkk : k ≤ k * poll_interval := Nat.le_mul_of_pos_right k hpos
    have htm : timeout_seconds ≤ k * poll_interval := le_trans hk hkk
    refine ⟨k, le_refl k, ?_, elapsed_bound_of_inv _ _ _ hpos hinv⟩
    rw [AWXClient.poll_job_aux]
    simp only [if_neg (hnt k), dif_pos htm]
    rw [collectedEvents_succ]
  | succ n ih =>
    intro k hle hinv
    by_cases htm : timeout_seconds ≤ k * poll_interval
    · refine ⟨k, le_refl k, ?_, elapsed_bound_of_inv _ _ _ hpos hinv⟩
      rw [AWXClient.poll_job_aux]
      simp only [if_neg (hnt k), dif_pos htm]
      rw [collectedEvents_succ]
    · have hkk : k ≤ k * poll_interval := Nat.le_mul_of_pos_right k hpos
      have hlt : k * poll_interval < timeout_seconds := Nat.lt_of_not_le htm
      have hkt : k < timeout_seconds := by omega
      have hstep :
          AWXClient.poll_job_aux statusAt eventsAt finishedDetails poll_interval timeout_seconds hpos
              k (collectedEvents eventsAt k) =
          AWXClient.poll_job_aux statusAt eventsAt finishedDetails poll_interval timeout_seconds hpos
              (k + 1) (collectedEvents eventsAt (k + 1)) := by
        rw [AWXClient.poll_job_aux]
        simp only [if_neg (hnt k), dif_neg htm]
        rw [collectedEvents_succ]
      obtain ⟨j, hj, heq, hbound⟩ := ih (k + 1) (by omega)
        (Or.inr (by simpa using hlt))
      exact ⟨j, by omega, hstep.trans heq, hbound⟩

/-- C5: for every status source that never reports a terminal status, the
    poll loop returns with status exactly timeout, a null finish time and
    the events collected so far, within timeout plus one poll interval of
    (abstract) wall-clock time — it never polls indefinitely. -/
theorem c5_poll_timeout (statusAt : ℕ → String)
    (eventsAt : ℕ → Option (List (String × String))) (finishedDetails : Option String)
    (poll_interval timeout_seconds : ℕ) (hpos : 0 < poll_interval)
    (hnt : ∀ j, statusAt j ∉ terminalStatuses) :
    (AWXClient.poll_job statusAt eventsAt finishedDetails poll_interval timeout_seconds hpos).status
        = "timeout" ∧
    (AWXClient.poll_job statusAt eventsAt finishedDetails poll_interval timeout_seconds hpos).finished_at
        = none ∧
    (AWXClient.poll_job statusAt eventsAt finishedDetails poll_interval timeout_seconds hpos).elapsed
        < timeout_seconds + poll_interval ∧
    ∃ j, (AWXClient.poll_job statusAt eventsAt finishedDetails poll_interval timeout_seconds hpos).events
        = collectedEvents eventsAt j := by
  obtain ⟨j, _, heq, hbound⟩ :=
    poll_job_aux_never_terminal statusAt eventsAt finishedDetails poll_interval timeout_seconds
      hpos hnt timeout_seconds 0 (by omega) (Or.inl rfl)
  have h0 : collectedEvents eventsAt 0 = [] := rfl
  unfold AWXClient.poll_job
  rw [← h0, heq]
  exact ⟨rfl, rfl, hbound, j + 1, rfl⟩

/-- C5 witness: the theorem applied to a status source stuck on running,
    with poll interval 2 and timeout 5. -/
theorem c5_witness :
    (0 < 2) ∧ (∀ _j : ℕ, ("running" : String) ∉ terminalStatuses) ∧
    ((AWXClient.poll_job (fun _ => "running") (fun k => some [("e", toString k)]) none 2 5
        (by decide)).status = "timeout" ∧
     (AWXClient.poll_job (fun _ => "running") (fun k => some [("e", toString k)]) none 2 5
        (by decide)).finished_at = none ∧
     (AWXClient.poll_job (fun _ => "running") (fun k => some [("e", toString k)]) none 2 5
        (by decide)).elapsed < 5 + 2 ∧
     ∃ j, (AWXClient.poll_job (fun _ => "running") (fun k => some [("e", toString k)]) none 2 5
        (by decide)).events = collectedEvents (fun k => some [("e", toString k)]) j) :=
  ⟨by decide, fun _ => by decide,
   c5_poll_timeout (fun _ => "running") (fun k => some [("e", toString k)]) none 2 5
     (by decide) (fun _ => (by decide : ("running" : String) ∉ terminalStatuses))⟩

/- ===== C1, C6, C8 ===== -/

/-- C1: with an oracle classification carrying the P1 marker label but
    eligibility auto, the pipeline classification keeps eligibility auto
    (no stage ever forces human-only: validate_playbook_selection, which
    would, is called by no module), and the coordinator runs Plan, Execute,
    Validate and Close instead of stopping with awaiting_approval. The run
    then terminates with status error — not through the severity gate, but
    because the Close stage, reached on the successful-plus-success path,
    raises AttributeError on ctx.plan.playbook_name. The last conjunct
    shows that the uncalled validate_playbook_selection would indeed have
    latched human-only. -/
theorem c1_p1_label_is_not_gated :
    (OrchestrationAgent.run c1Inp).ctx.classification =
      some ⟨["P1"], mkRat 9 10, "auto", "P1"⟩ ∧
    (OrchestrationAgent.run c1Inp).response.status = "error" ∧
    (OrchestrationAgent.run c1Inp).response.status ≠ "awaiting_approval" ∧
    Stage.plan ∈ (OrchestrationAgent.run c1Inp).trace ∧
    Stage.execute ∈ (OrchestrationAgent.run c1Inp).trace ∧
    Stage.validate ∈ (OrchestrationAgent.run c1Inp).trace ∧
    Stage.close ∈ (OrchestrationAgent.run c1Inp).trace ∧
    (OrchestrationAgent.run c1Inp).ctx.execution =
      some (ExecutorAgent.run c1Inp.attempt1 c1Inp.localId1) ∧
    (OrchestrationAgent.run c1Inp).ctx.validation = some ⟨[], [], [], "success"⟩ ∧
    (validate_playbook_selection ⟨"7", "Demo Job Template", "Demo playbook", "auto"⟩ ["P1"]
        c1KnownPlaybooks).eligibility = "human-only" := by
  decide

/-- C6: when the automation-runner launch raises, the executor attaches an
    ExecutionRecord with status failed, one diagnostic event, null
    finished_at and a locally generated job id, and the coordinator still
    invokes the Validate stage rather than aborting. -/
theorem c6_launch_failure_not_fatal (inp : OrchInputs) (inc : Incident) (raw : RawClassifierOut)
    (cls : Classification) (po : PlannerOut) (e : String)
    (h1 : inp.intakeOut = .ok inc) (h2 : inp.classifierOut = .ok raw)
    (h3 : ClassifierAgent.run raw inc.short_description inc.description = .ok cls)
    (h4 : cls.eligibility ≠ "human-only") (h5 : inp.plannerOut = .ok po)
    (h6 : inp.attempt1 = .launchFail e) :
    (ExecutorAgent.run inp.attempt1 inp.localId1).status = "failed" ∧
    (ExecutorAgent.run inp.attempt1 inp.localId1).steps = [awxErrorEvent e] ∧
    (ExecutorAgent.run inp.attempt1 inp.localId1).finished_at = none ∧
    (ExecutorAgent.run inp.attempt1 inp.localId1).job_id = toString (inp.localId1 % 10000) ∧
    Stage.validate ∈ (OrchestrationAgent.run inp).trace := by
  rw [h6]
  refine ⟨rfl, rfl, rfl, rfl, ?_⟩
  simp only [OrchestrationAgent.run, h1, h2, h3, h5]
  rw [if_neg h4]
  cases hv : inp.validatorOut with
  | error e' => simp
  | ok vs =>
    cases hcl : inp.closureOut with
    | error e'' => simp [ClosureAgent.runE]
    | ok co =>
      simp only [ClosureAgent.runE]
      split <;> simp

/-- C6 witness: the theorem applied to concrete inputs whose launch raises
    a connection error. -/
theorem c6_witness :
    (c6Inp.intakeOut = .ok c6Incident) ∧
    (c6Inp.classifierOut = .ok ⟨some ["server_down"], some "P3", some "auto", some (mkRat 1 2)⟩) ∧
    (ClassifierAgent.run ⟨some ["server_down"], some "P3", some "auto", some (mkRat 1 2)⟩
        c6Incident.short_description c6Incident.description =
      .ok ⟨["server_down"], mkRat 1 2, "auto", "P3"⟩) ∧
    (("auto" : String) ≠ "human-only") ∧
    (c6Inp.plannerOut = .ok ⟨some "7", some "Demo Job Template", some [], some [], mkRat 1 10, "auto"⟩) ∧
    (c6Inp.attempt1 = .launchFail "connection refused") ∧
    ((ExecutorAgent.run c6Inp.attempt1 c6Inp.localId1).status = "failed" ∧
     (ExecutorAgent.run c6Inp.attempt1 c6Inp.localId1).steps = [awxErrorEvent "connection refused"] ∧
     (ExecutorAgent.run c6Inp.attempt1 c6Inp.localId1).finished_at = none ∧
     (ExecutorAgent.run c6Inp.attempt1 c6Inp.localId1).job_id = toString (c6Inp.localId1 % 10000) ∧
     Stage.validate ∈ (OrchestrationAgent.run c6Inp).trace) :=
  ⟨rfl, rfl, by decide, by decide, rfl, rfl,
   c6_launch_failure_not_fatal c6Inp c6Incident
     ⟨some ["server_down"], some "P3", some "auto", some (mkRat 1 2)⟩
     ⟨["server_down"], mkRat 1 2, "auto", "P3"⟩
     ⟨some "7", some "Demo Job Template", some [], some [], mkRat 1 10, "auto"⟩
     "connection refused" rfl rfl (by decide) (by decide) rfl rfl⟩

theorem closure_run_ok_of_not_success (o : ClosureOut) (number : String) (plan : Plan)
    (es vd : String) (hvd : vd ≠ "success") :
    ∃ c, ClosureAgent.run o number plan es vd = .ok c := by
  simp only [ClosureAgent.run]
  rw [if_neg (fun hc => hvd hc.2)]
  exact ⟨_, rfl⟩

/-- C8: when Validate decides rollback, Execute is re-run exactly once
    before Close (the trace lists execute exactly twice, with close after
    the retry and no second validation), and the terminal response carries
    the validation decision, the incident number and the job id of the
    retried execution. -/
theorem c8_rollback_single_retry (inp : OrchInputs) (inc : Incident) (raw : RawClassifierOut)
    (cls : Classification) (po : PlannerOut) (vs : ValidationSignals) (co : ClosureOut)
    (h1 : inp.intakeOut = .ok inc) (h2 : inp.classifierOut = .ok raw)
    (h3 : ClassifierAgent.run raw inc.short_description inc.description = .ok cls)
    (h4 : cls.eligibility ≠ "human-only") (h5 : inp.plannerOut = .ok po)
    (h6 : inp.validatorOut = .ok vs) (h7 : vs.decision = "rollback")
    (h8 : inp.closureOut = .ok co) :
    (OrchestrationAgent.run inp).response =
      ⟨vs.decision, inc.number, some (ExecutorAgent.run inp.attempt2 inp.localId2).job_id⟩ ∧
    (OrchestrationAgent.run inp).trace =
      [Stage.intake, Stage.classify, Stage.plan, Stage.execute, Stage.validate,
       Stage.execute, Stage.close] := by
  simp only [OrchestrationAgent.run, h1, h2, h3, h5, h6, h8, ClosureAgent.runE]
  rw [if_neg h4]
  simp only [h7, if_true]
  obtain ⟨c, hc⟩ := closure_run_ok_of_not_success co inc.number
    (Plan.ofPlanData (PlannerAgent.run cls.labels inc.short_description inc.description po inp.catalog))
    (ExecutorAgent.run inp.attempt2 inp.localId2).status "rollback" (by decide)
  rw [hc]
  simp

/-- C8 witness: the theorem applied to concrete inputs whose validation
    decides rollback. -/
theorem c8_witness :
    (c8Inp.intakeOut = .ok c6Incident) ∧
    (c8Inp.classifierOut = .ok ⟨some ["server_down"], some "P3", some "auto", some (mkRat 1 2)⟩) ∧
    (ClassifierAgent.run ⟨some ["server_down"], some "P3", some "auto", some (mkRat 1 2)⟩
        c6Incident.short_description c6Incident.description =
      .ok ⟨["server_down"], mkRat 1 2, "auto", "P3"⟩) ∧
    (("auto" : String) ≠ "human-only") ∧
    (c8Inp.plannerOut = .ok ⟨some "7", some "Demo Job Template", some [], some [], mkRat 1 10, "auto"⟩) ∧
    (c8Inp.validatorOut = .ok ⟨[], [], [], "rollback"⟩) ∧
    ((ValidationSignals.mk [] [] [] "rollback").decision = "rollback") ∧
    (c8Inp.closureOut = .ok ⟨none, none, none, none, none⟩) ∧
    ((OrchestrationAgent.run c8Inp).response =
      ⟨(ValidationSignals.mk [] [] [] "rollback").decision, c6Incident.number,
       some (ExecutorAgent.run c8Inp.attempt2 c8Inp.localId2).job_id⟩ ∧
     (OrchestrationAgent.run c8Inp).trace =
      [Stage.intake, Stage.classify, Stage.plan, Stage.execute, Stage.validate,
       Stage.execute, Stage.close]) :=
  ⟨rfl, rfl, by decide, by decide, rfl, rfl, rfl, rfl,
   c8_rollback_single_retry c8Inp c6Incident
     ⟨some ["server_down"], some "P3", some "auto", some (mkRat 1 2)⟩
     ⟨["server_down"], mkRat 1 2, "auto", "P3"⟩
     ⟨some "7", some "Demo Job Template", some [], some [], mkRat 1 10, "auto"⟩
     ⟨[], [], [], "rollback"⟩ ⟨none, none, none, none, none⟩
     rfl rfl (by decide) (by decide) rfl rfl rfl rfl⟩
